import Mathlib

/-!
Verification development for a restaurant-recommendation chat assistant
consisting of three components: a message router (LF0.py), a dialog
fulfillment handler for the conversational-intent engine (LF1.py), and a
queue-backed suggestion worker (LF2.py).  The sources are embedded
shallowly: every definition below is translated from the corresponding
Python function; external managed services (queue, search index, document
store, email) are passed in as explicit environments of oracle functions,
and the handlers return both their result value and a record of the
side effects they performed.

Strings are handled through list-of-character primitives mirroring the
Python string methods used by the sources (lower, strip, capitalize,
split, int conversion, the email regular expression); these cover the
ASCII character range, which is the range the allow-lists and messages of
the program use.
-/

namespace Spec2Proof

/-- Embeds the Python str.lower method (ASCII range). -/
def pyLower (s : String) : String := ⟨s.data.map Char.toLower⟩

/-- The characters Python str.strip removes by default (ASCII whitespace). -/
def pyIsSpace (c : Char) : Bool :=
  c = ' ' || c = '\t' || c = '\n' || c = '\r' || c = Char.ofNat 11 || c = Char.ofNat 12

/-- Embeds the Python str.strip method with no arguments. -/
def pyStrip (s : String) : String :=
  ⟨((s.data.dropWhile pyIsSpace).reverse.dropWhile pyIsSpace).reverse⟩

/-- Embeds the Python str.capitalize method: first character uppercased,
the rest lowercased (ASCII range). -/
def pyCapitalize (s : String) : String :=
  match s.data with
  | [] => ⟨[]⟩
  | c :: cs => ⟨c.toUpper :: cs.map Char.toLower⟩

/-- Embeds the Python expression str(x) for an optional string x: the
value itself, or the text None for the null value. -/
def pyStrOpt : Option String → String
  | some s => s
  | none => "None"

/-- Embeds the Python membership test (c in s) for a single character. -/
def strContains (s : String) (c : Char) : Bool := s.data.contains c

/-- Splits a character list at every occurrence of the separator, keeping
empty pieces, as Python str.split with an explicit separator does. -/
def splitOnChar (c : Char) : List Char → List (List Char)
  | [] => [[]]
  | x :: xs =>
    let r := splitOnChar c xs
    if x = c then [] :: r
    else
      match r with
      | [] => [[x]]
      | h :: t => (x :: h) :: t

/-- Embeds the Python str.split method with a one-character separator. -/
def pySplit (s : String) (c : Char) : List String :=
  (splitOnChar c s.data).map (fun l => ⟨l⟩)

/-- Embeds the Python str.join method. -/
def joinSep (sep : String) : List String → String
  | [] => ""
  | [x] => x
  | x :: xs => x ++ sep ++ joinSep sep xs

/-- Embeds the Python str.replace method for one-character arguments,
as used to turn a network address into a session key. -/
def pyReplaceChar (s : String) (a b : Char) : String :=
  ⟨s.data.map (fun c => if c = a then b else c)⟩

/-- Digit run of the Python int() grammar: digits with single
underscores allowed between digits. -/
def pyDigitsCore : List Char → Bool
  | [] => true
  | c :: cs =>
    if c = '_' then
      match cs with
      | [] => false
      | d :: ds => d.isDigit && pyDigitsCore ds
    else c.isDigit && pyDigitsCore cs

/-- A nonempty digit run that does not start with an underscore. -/
def pyIntDigits (l : List Char) : Bool :=
  match l with
  | [] => false
  | c :: _ => c.isDigit && pyDigitsCore l

/-- Numeric value of a digit run, ignoring underscores. -/
def digitsValue (l : List Char) : Nat :=
  l.foldl (fun n c => if c = '_' then n else n * 10 + (c.toNat - 48)) 0

/-- Embeds the Python int() conversion applied to a string: surrounding
whitespace is stripped, an optional sign is allowed, and the rest must be
a digit run; the result is none when Python would raise ValueError. -/
def pyIntParse (s : String) : Option Int :=
  match (pyStrip s).data with
  | '+' :: rest => if pyIntDigits rest then some (Int.ofNat (digitsValue rest)) else none
  | '-' :: rest => if pyIntDigits rest then some (-(Int.ofNat (digitsValue rest))) else none
  | rest => if pyIntDigits rest then some (Int.ofNat (digitsValue rest)) else none

/-- ASCII letter, the a-zA-Z class of the email pattern. -/
def isAlphaChar (c : Char) : Bool := ('a' ≤ c && c ≤ 'z') || ('A' ≤ c && c ≤ 'Z')

/-- ASCII letter or digit. -/
def isAlnumChar (c : Char) : Bool := isAlphaChar c || ('0' ≤ c && c ≤ '9')

/-- Character class of the local part of the email pattern. -/
def isLocalChar (c : Char) : Bool :=
  isAlnumChar c || c = '.' || c = '_' || c = '%' || c = '+' || c = '-'

/-- Character class of the domain part of the email pattern. -/
def isDomainChar (c : Char) : Bool := isAlnumChar c || c = '.' || c = '-'

/-- Removes one trailing newline if present: the dollar anchor of a
Python regular expression also matches just before a final newline. -/
def stripOneTrailingNewline (l : List Char) : List Char :=
  if l.getLastD ' ' = '\n' then l.dropLast else l

/-- The part of the email pattern after the at sign: one or more domain
characters, then a literal dot, then at least two letters at the end.
Since the top-level-domain piece admits no dot, the dot before it must be
the last dot of the string. -/
def emailDomainOk (l : List Char) : Bool :=
  let rev := l.reverse
  let tldRev := rev.takeWhile (fun c => !(c = '.'))
  match rev.drop tldRev.length with
  | [] => false
  | _dot :: domRev =>
    decide (2 ≤ tldRev.length) && tldRev.all isAlphaChar &&
    !domRev.isEmpty && domRev.all isDomainChar

/-- Embeds the anchored email regular expression of the source
(local-part characters, one at sign, domain characters, a dot, a
top-level domain of at least two letters).  The at sign belongs to none
of the character classes, so a matching string contains exactly one. -/
def emailRegexMatch (s : String) : Bool :=
  match splitOnChar '@' s.data with
  | [localPart, domainPart] =>
    !localPart.isEmpty && localPart.all isLocalChar &&
    emailDomainOk (stripOneTrailingNewline domainPart)
  | _ => false

/-! ## LF1.py: data model of the dialog fulfillment handler -/

/-- The five slot names of the dining-suggestions intent. -/
inductive SlotName where
  | Location
  | Cuisine
  | NumberOfPeople
  | DiningTime
  | Email
deriving DecidableEq

/-- A slot entry as received from the intent engine: none models an
absent or null slot object, some v models a present slot object whose
interpreted value is v (itself possibly absent). -/
abbrev SlotEntry := Option (Option String)

/-- The slot set of the dining-suggestions intent. -/
structure Slots where
  location : SlotEntry
  cuisine : SlotEntry
  diningTime : SlotEntry
  numberOfPeople : SlotEntry
  email : SlotEntry
deriving DecidableEq

/-- Look up a slot entry by name. -/
def Slots.get (s : Slots) : SlotName → SlotEntry
  | .Location => s.location
  | .Cuisine => s.cuisine
  | .NumberOfPeople => s.numberOfPeople
  | .DiningTime => s.diningTime
  | .Email => s.email

/-- Replace a slot entry by name. -/
def Slots.set (s : Slots) (n : SlotName) (e : SlotEntry) : Slots :=
  match n with
  | .Location => { s with location := e }
  | .Cuisine => { s with cuisine := e }
  | .NumberOfPeople => { s with numberOfPeople := e }
  | .DiningTime => { s with diningTime := e }
  | .Email => { s with email := e }

/-- Embeds get_slot_value of LF1.py: none when the slot object or any of
its value levels is missing, otherwise the interpreted value. -/
def get_slot_value (slots : Slots) (name : SlotName) : Option String :=
  match slots.get name with
  | none => none
  | some v => v

/-- The fixed cuisine allow-list of LF1.py. -/
def VALID_CUISINES : List String :=
  ["chinese", "italian", "mexican", "japanese", "indian", "turkish", "spanish"]

/-- The fixed location allow-list of LF1.py. -/
def VALID_LOCATIONS : List String := ["manhattan", "brooklyn"]

/-- Embeds is_valid_cuisine of LF1.py. -/
def is_valid_cuisine : Option String → Bool
  | none => true
  | some c => VALID_CUISINES.contains (pyLower c)

/-- Embeds is_valid_location of LF1.py. -/
def is_valid_location : Option String → Bool
  | none => true
  | some l => VALID_LOCATIONS.contains (pyStrip (pyLower l))

/-- Embeds is_valid_number_of_people of LF1.py. -/
def is_valid_number_of_people : Option String → Bool
  | none => true
  | some num =>
    match pyIntParse num with
    | some n => decide (1 ≤ n ∧ n ≤ 20)
    | none => false

/-- Embeds is_valid_dining_time of LF1.py: accepted outright when no
colon occurs; otherwise the first two colon-separated parts must be
integers in the hour and minute ranges. -/
def is_valid_dining_time : Option String → Bool
  | none => true
  | some s =>
    if strContains s ':' then
      match pyIntParse ((pySplit s ':').getD 0 ""), pyIntParse ((pySplit s ':').getD 1 "") with
      | some h, some m => decide (0 ≤ h ∧ h ≤ 23 ∧ 0 ≤ m ∧ m ≤ 59)
      | _, _ => false
    else true

/-- Embeds is_valid_email of LF1.py. -/
def is_valid_email : Option String → Bool
  | none => true
  | some s => emailRegexMatch s

/-! ## LF1.py: directive shapes and validation routine -/

/-- Session attributes, passed through unchanged by every handler. -/
abbrev SessionAttrs := List (String × String)

/-- The response shape the dialog fulfillment handler returns to the
intent engine: the union of the three directive builders of LF1.py.
Fields absent from a given directive are none or empty. -/
structure LexResponse where
  sessionAttributes : SessionAttrs
  dialogActionType : String
  slotToElicit : Option SlotName
  intentName : String
  intentState : Option String
  slots : Option Slots
  messages : List String
deriving DecidableEq

/-- Embeds close of LF1.py. -/
def close (sa : SessionAttrs) (intentName fulfillmentState messageContent : String) :
    LexResponse :=
  { sessionAttributes := sa, dialogActionType := "Close", slotToElicit := none,
    intentName := intentName, intentState := some fulfillmentState, slots := none,
    messages := [messageContent] }

/-- Embeds elicit_slot of LF1.py. -/
def elicit_slot (sa : SessionAttrs) (intentName : String) (slots : Slots)
    (slotToElicit : SlotName) (messageContent : String) : LexResponse :=
  { sessionAttributes := sa, dialogActionType := "ElicitSlot",
    slotToElicit := some slotToElicit, intentName := intentName,
    intentState := some "InProgress", slots := some slots,
    messages := [messageContent] }

/-- Embeds delegate of LF1.py. -/
def delegate (sa : SessionAttrs) (intentName : String) (slots : Slots) : LexResponse :=
  { sessionAttributes := sa, dialogActionType := "Delegate", slotToElicit := none,
    intentName := intentName, intentState := none, slots := some slots, messages := [] }

/-- Outcome of validate_dining_suggestion of LF1.py. -/
inductive ValidationResult where
  | valid
  | invalid (violatedSlot : SlotName) (message : String)
deriving DecidableEq

/-- Embeds validate_dining_suggestion of LF1.py: the five validators are
checked in the fixed source order, and the first failure wins. -/
def validate_dining_suggestion (slots : Slots) : ValidationResult :=
  let location := get_slot_value slots .Location
  let cuisine := get_slot_value slots .Cuisine
  let dining_time := get_slot_value slots .DiningTime
  let number_of_people := get_slot_value slots .NumberOfPeople
  let email := get_slot_value slots .Email
  if location.isSome && !(is_valid_location location) then
    .invalid .Location
      ("Sorry, I don\u0027t have suggestions for " ++ location.getD "" ++ ". Try another city?")
  else if cuisine.isSome && !(is_valid_cuisine cuisine) then
    .invalid .Cuisine
      (cuisine.getD "" ++ " isn\u0027t a supported cuisine. Choose from: " ++
        joinSep ", " VALID_CUISINES ++ ".")
  else if number_of_people.isSome && !(is_valid_number_of_people number_of_people) then
    .invalid .NumberOfPeople "Please enter a valid number of people (1-20)."
  else if dining_time.isSome && !(is_valid_dining_time dining_time) then
    .invalid .DiningTime "Please provide a valid time (e.g., 7 pm)."
  else if email.isSome && !(is_valid_email email) then
    .invalid .Email "Please provide a valid email address."
  else .valid

/-! ## LF1.py: queue submission and intent handlers -/

/-- The JSON body push_to_sqs of LF1.py serialises into the queue
message; optional fields are serialised as null. -/
structure SqsBody where
  Location : Option String
  Cuisine : Option String
  DiningTime : Option String
  NumberOfPeople : Option String
  Email : Option String
  Timestamp : String
deriving DecidableEq

/-- One send_message call: queue url, JSON body and the three string
message attributes. -/
structure SqsSend where
  queueUrl : String
  messageBody : SqsBody
  attrCuisine : String
  attrLocation : String
  attrEmail : String
deriving DecidableEq

/-- Environment of push_to_sqs: the queue url environment variable, the
queue client (returning a message id or failing), and the clock. -/
structure SqsEnv where
  queueUrl : Option String
  sendMessage : SqsSend → Except Unit String
  now : String

/-- Embeds push_to_sqs of LF1.py.  A missing location value makes the
lower() call raise; a missing or empty queue url raises; a missing
cuisine or email value makes the queue client reject the null string
attribute; any queue-client failure is an error.  On success the send
that was performed is returned along with the message id. -/
def push_to_sqs (env : SqsEnv) (location cuisine dining_time number_of_people email :
    Option String) : Except Unit (SqsSend × String) :=
  match location with
  | none => .error ()
  | some loc0 =>
    let loc := if pyLower loc0 = "manhattan" then "new york" else loc0
    match env.queueUrl with
    | none => .error ()
    | some url =>
      if url = "" then .error ()
      else
        match cuisine, email with
        | some cu, some em =>
          let send : SqsSend :=
            { queueUrl := url,
              messageBody :=
                { Location := some loc, Cuisine := cuisine, DiningTime := dining_time,
                  NumberOfPeople := number_of_people, Email := email, Timestamp := env.now },
              attrCuisine := cu, attrLocation := loc, attrEmail := em }
          match env.sendMessage send with
          | .ok mid => .ok (send, mid)
          | .error e => .error e
        | _, _ => .error ()

/-- The event shape handle_dining_suggestions_intent of LF1.py reads. -/
structure DiningEvent where
  sessionAttributes : SessionAttrs
  intentName : String
  slots : Slots
  invocationSource : String

/-- The confirmation message of the fulfillment branch of LF1.py,
with optional values rendered the way a Python format string renders
them. -/
def confirmation_message (cuisine location number_of_people dining_time email :
    Option String) : String :=
  "You\u0027re all set! I\u0027ve received your request for " ++
    pyCapitalize (cuisine.getD "") ++ " restaurant suggestions in " ++
    pyStrOpt location ++ " for " ++ pyStrOpt number_of_people ++ " people at " ++
    pyStrOpt dining_time ++ ". I will notify you via email at " ++ pyStrOpt email ++
    " once I have the list of suggestions. Expect it shortly!"

/-- The fixed failure message of the fulfillment branch of LF1.py. -/
def fulfillment_failure_message : String :=
  "I\u0027m sorry, something went wrong while processing your request. Please try again later."

/-- Embeds handle_dining_suggestions_intent of LF1.py.  Returns the
directive sent back to the intent engine together with the queue send
performed, if any. -/
def handle_dining_suggestions_intent (env : SqsEnv) (event : DiningEvent) :
    LexResponse × Option SqsSend :=
  let sa := event.sessionAttributes
  let intentName := event.intentName
  let slots := event.slots
  if event.invocationSource = "DialogCodeHook" then
    match validate_dining_suggestion slots with
    | .invalid violatedSlot message =>
      let slots1 := if (slots.get violatedSlot).isSome
        then slots.set violatedSlot none else slots
      (elicit_slot sa intentName slots1 violatedSlot message, none)
    | .valid => (delegate sa intentName slots, none)
  else if event.invocationSource = "FulfillmentCodeHook" then
    let location := get_slot_value slots .Location
    let cuisine := get_slot_value slots .Cuisine
    let dining_time := get_slot_value slots .DiningTime
    let number_of_people := get_slot_value slots .NumberOfPeople
    let email := get_slot_value slots .Email
    match push_to_sqs env location cuisine dining_time number_of_people email with
    | .ok (send, _mid) =>
      (close sa intentName "Fulfilled"
        (confirmation_message cuisine location number_of_people dining_time email),
        some send)
    | .error _ =>
      (close sa intentName "Failed" fulfillment_failure_message, none)
  else (delegate sa intentName slots, none)

/-- Embeds handle_greeting_intent of LF1.py. -/
def handle_greeting_intent (event : DiningEvent) : LexResponse :=
  close event.sessionAttributes event.intentName "Fulfilled"
    "Hi there! How can I help you? You can ask me for dining suggestions."

/-- Embeds handle_thank_you_intent of LF1.py. -/
def handle_thank_you_intent (event : DiningEvent) : LexResponse :=
  close event.sessionAttributes event.intentName "Fulfilled"
    "You\u0027re welcome! Have a great day and enjoy your meal!"

/-- Embeds lambda_handler of LF1.py: routing on the intent name. -/
def lambda_handler_LF1 (env : SqsEnv) (event : DiningEvent) :
    LexResponse × Option SqsSend :=
  if event.intentName = "GreetingIntent" then (handle_greeting_intent event, none)
  else if event.intentName = "ThankYouIntent" then (handle_thank_you_intent event, none)
  else if event.intentName = "DiningSuggestionsIntent" then
    handle_dining_suggestions_intent env event
  else (close [] event.intentName "Failed"
    "Sorry, I didn\u0027t understand that. Can you try again?", none)

/-! ## LF2.py: the suggestion worker -/

/-- The parsed JSON body of one queue message, as LF2.py reads it with
defaulting gets; a field is none when absent from the JSON object. -/
structure WorkerBody where
  Cuisine : Option String
  Location : Option String
  Email : Option String
  DiningTime : Option String
  NumberOfPeople : Option String
deriving DecidableEq

/-- One received queue message.  The body field is none when the raw
body is not valid JSON, in which case the parse raises. -/
structure SqsWorkerMsg where
  receiptHandle : String
  body : Option WorkerBody
deriving DecidableEq

/-- One search hit, carrying the business identifier the worker reads. -/
structure Hit where
  RestaurantID : String
deriving DecidableEq

/-- One document-store record, with the fields the worker formats
(defaults applied on absence). -/
structure RestaurantItem where
  name : Option String
  address : Option String
  rating : Option String
  reviewCount : Option String
deriving DecidableEq

/-- One email-service send call. -/
structure EmailSend where
  source : String
  toAddress : String
  subject : String
  bodyText : String
deriving DecidableEq

/-- Environment of the suggestion worker: the queue front, the two
search calls (exact term and fallback match), the random sampler, the
document store, the email service and the configured source address. -/
structure WorkerEnv where
  receive : Option SqsWorkerMsg
  searchTerm : String → Except Unit (List Hit)
  searchMatch : String → Except Unit (List Hit)
  sample : List Hit → Nat → List Hit
  dbGet : String → Except Unit (Option RestaurantItem)
  sesSend : EmailSend → Except Unit Unit
  sourceEmail : String

/-- The value the worker returns to its caller. -/
structure WorkerReturn where
  status : String
  restaurants_sent : Option Nat
deriving DecidableEq

/-- Either a returned value or an exception propagating to the caller. -/
inductive WorkerOutcome where
  | ret (r : WorkerReturn)
  | raised
deriving DecidableEq

/-- The externally visible effects of one worker invocation. -/
structure WorkerEffects where
  deleted : Bool
  termQueries : List String
  matchQueries : List String
  dbReads : List String
  emailAttempts : Nat
deriving DecidableEq

/-- The try of the search call in LF2.py: the exact-term query, falling
back to the match query on any search-layer error; an error of the
fallback itself propagates. -/
def resolveSearch (env : WorkerEnv) (cuisine : String) : Except Unit (List Hit) :=
  match env.searchTerm cuisine with
  | .ok r => .ok r
  | .error _ => env.searchMatch cuisine

/-- The document-store loop of LF2.py: one get per selected hit, with
missing records and store errors silently skipped. -/
def fetchDetails (env : WorkerEnv) : List Hit → List RestaurantItem
  | [] => []
  | h :: rest =>
    match env.dbGet h.RestaurantID with
    | .ok (some item) => item :: fetchDetails env rest
    | .ok none => fetchDetails env rest
    | .error _ => fetchDetails env rest

/-- The location synonym list of LF2.py. -/
def LOCATION_SYNONYMS : List String :=
  ["manhattan", "new york", "new york, ny", "new york city", "nyc", "ny, ny"]

/-- The display-label normalisation of LF2.py: the synonym variants all
collapse to manhattan, any other value passes through. -/
def workerLocation (loc : String) : String :=
  if LOCATION_SYNONYMS.contains (pyStrip (pyLower loc)) then "manhattan" else loc

/-- One line of the composed suggestion email. -/
def restaurantLine (idx : Nat) (r : RestaurantItem) : String :=
  toString idx ++ ". " ++ r.name.getD "Unknown" ++ "\n   Address: " ++
    r.address.getD "Address not available" ++ "\n   Rating: " ++ r.rating.getD "N/A" ++
    " (" ++ r.reviewCount.getD "N/A" ++ " reviews)\n\n"

/-- The numbered list of the composed suggestion email. -/
def restaurantLines (idx : Nat) : List RestaurantItem → String
  | [] => ""
  | r :: rest => restaurantLine idx r ++ restaurantLines (idx + 1) rest

/-- The full plain-text body of the suggestion email of LF2.py. -/
def composeEmailText (cuisine location number_of_people dining_time : String)
    (details : List RestaurantItem) : String :=
  "Hello!\n\nHere are your " ++ cuisine ++ " restaurant suggestions in " ++ location ++
    " for " ++ number_of_people ++ " people at " ++ dining_time ++ ":\n\n" ++
    restaurantLines 1 details ++ "Enjoy your meal!\n- Dining Concierge Bot"

/-- Embeds lambda_handler of LF2.py: receive at most one message, check
presence of cuisine and email, normalise the display location, query the
search index with fallback, sample up to five hits, fetch records,
compose and send the email; the message is deleted at every handled exit
after the presence check, but an error of the fallback search (or an
unparseable body) propagates without deleting. -/
def lambda_handler_LF2 (env : WorkerEnv) : WorkerOutcome × WorkerEffects :=
  match env.receive with
  | none => (.ret ⟨"No messages in queue", none⟩, ⟨false, [], [], [], 0⟩)
  | some msg =>
    match msg.body with
    | none => (.raised, ⟨false, [], [], [], 0⟩)
    | some body =>
      let cuisine := pyCapitalize (body.Cuisine.getD "")
      let location := body.Location.getD ""
      let email := body.Email.getD ""
      let dining_time := body.DiningTime.getD ""
      let number_of_people := body.NumberOfPeople.getD ""
      if cuisine = "" ∨ email = "" then
        (.ret ⟨"Missing required fields", none⟩, ⟨true, [], [], [], 0⟩)
      else
        let location := workerLocation location
        let termQ := [cuisine]
        let matchQ := match env.searchTerm cuisine with | .ok _ => [] | .error _ => [cuisine]
        match resolveSearch env cuisine with
        | .error _ => (.raised, ⟨false, termQ, matchQ, [], 0⟩)
        | .ok hits =>
          if hits.isEmpty then
            (.ret ⟨"No restaurants found for " ++ cuisine, none⟩,
              ⟨true, termQ, matchQ, [], 0⟩)
          else
            let selected := env.sample hits (min 5 hits.length)
            let dbReads := selected.map (fun h => h.RestaurantID)
            let details := fetchDetails env selected
            if details.isEmpty then
              (.ret ⟨"No restaurant details found in DynamoDB", none⟩,
                ⟨true, termQ, matchQ, dbReads, 0⟩)
            else
              let text := composeEmailText cuisine location number_of_people dining_time details
              match env.sesSend ⟨env.sourceEmail, email,
                  "Your " ++ cuisine ++ " Dining Suggestions in " ++ location, text⟩ with
              | .error _ => (.raised, ⟨true, termQ, matchQ, dbReads, 1⟩)
              | .ok _ =>
                (.ret ⟨"Email sent successfully", some details.length⟩,
                  ⟨true, termQ, matchQ, dbReads, 1⟩)

/-! ## LF0.py: the message router -/

/-- The payload under the unstructured key of a chat message. -/
structure UnstructuredPayload where
  text : Option String
deriving DecidableEq

/-- One chat message of the request body, in one of its two shapes. -/
structure ChatMessage where
  unstructured : Option UnstructuredPayload
  text : Option String
deriving DecidableEq

/-- The parsed JSON request body of the router. -/
structure ChatBody where
  messages : Option (List ChatMessage)
  sessionId : Option String
deriving DecidableEq

/-- The raw body of the incoming event: either a JSON string (whose
parse may fail) or an already-parsed object. -/
inductive RawBody where
  | str (parsed : Option ChatBody)
  | obj (b : ChatBody)

/-- The parts of the incoming HTTP-style event the router reads. -/
structure RouterEvent where
  body : Option RawBody
  xSessionId : Option String
  sourceIp : Option String

/-- Environment of the router: the intent-engine call (text and session
to a list of reply-fragment contents, or an error), a fresh identifier
and the clock. -/
structure RouterEnv where
  lex : String → String → Except Unit (List String)
  uuid : String
  now : String

/-- One message of the 200 response envelope. -/
structure BotMessage where
  id : String
  text : String
  timestamp : String
deriving DecidableEq

/-- The body of a router response: a structured error or the envelope. -/
inductive RouterBody where
  | err (code : Nat) (message : String)
  | ok (messages : List BotMessage)
deriving DecidableEq

/-- The router response. -/
structure HttpResponse where
  statusCode : Nat
  headers : List (String × String)
  body : RouterBody
deriving DecidableEq

/-- The permissive cross-origin headers attached to every response. -/
def corsHeaders : List (String × String) :=
  [("Content-Type", "application/json"),
   ("Access-Control-Allow-Origin", "*"),
   ("Access-Control-Allow-Headers", "Content-Type,x-session-id"),
   ("Access-Control-Allow-Methods", "POST, OPTIONS")]

/-- Embeds error_response of LF0.py. -/
def error_response (statusCode : Nat) (message : String) : HttpResponse :=
  { statusCode := statusCode, headers := corsHeaders, body := .err statusCode message }

/-- Embeds send_to_lex of LF0.py: join the reply fragments with spaces,
or a fixed apology when the engine returns none; engine errors are
re-raised to the caller. -/
def send_to_lex (env : RouterEnv) (messageText sessionId : String) : Except Unit String :=
  match env.lex messageText sessionId with
  | .error e => .error e
  | .ok msgs =>
    .ok (if msgs.isEmpty
      then "Sorry, I didn\u0027t understand that. Could you try again?"
      else joinSep " " msgs)

/-- The text-extraction branch of lambda_handler of LF0.py: the
unstructured shape wins, then the flat text shape, else no text. -/
def userTextOf (m : ChatMessage) : Option String :=
  match m.unstructured with
  | some u => some (u.text.getD "")
  | none =>
    match m.text with
    | some t => some t
    | none => none

/-- The session-key fallback chain of lambda_handler of LF0.py:
explicit session field, then a nonempty header, then a nonempty caller
address with dots replaced by hyphens, else the fixed default. -/
def sessionIdOf (b : ChatBody) (event : RouterEvent) : String :=
  match b.sessionId with
  | some sid => sid
  | none =>
    match event.xSessionId with
    | some h =>
      if h = "" then
        match event.sourceIp with
        | some ip => if ip = "" then "default-user" else pyReplaceChar ip '.' '-'
        | none => "default-user"
      else h
    | none =>
      match event.sourceIp with
      | some ip => if ip = "" then "default-user" else pyReplaceChar ip '.' '-'
      | none => "default-user"

/-- The part of lambda_handler of LF0.py that runs once a parsed body
is at hand. -/
def routerWithBody (env : RouterEnv) (event : RouterEvent) (b : ChatBody) : HttpResponse :=
  match b.messages with
  | none => error_response 400 "Missing or empty messages array"
  | some ms =>
    if ms.isEmpty then error_response 400 "Missing or empty messages array"
    else
      match userTextOf (ms.getLastD ⟨none, none⟩) with
      | none => error_response 400 "Message has no text content"
      | some user_text =>
        if user_text = "" ∨ pyStrip user_text = "" then
          error_response 400 "Empty message text"
        else
          match send_to_lex env user_text (sessionIdOf b event) with
          | .error _ => error_response 500 "Internal server error"
          | .ok lexText =>
            { statusCode := 200, headers := corsHeaders,
              body := .ok [⟨env.uuid, lexText, env.now⟩] }

/-- Embeds lambda_handler of LF0.py: body presence, JSON parse, then the
validated path; a JSON parse failure is the 400 invalid-JSON error, and
any engine failure is the generic 500. -/
def lambda_handler_LF0 (env : RouterEnv) (event : RouterEvent) : HttpResponse :=
  match event.body with
  | none => error_response 400 "Missing request body"
  | some (.str none) => error_response 400 "Invalid JSON in request body"
  | some (.str (some b)) => routerWithBody env event b
  | some (.obj b) => routerWithBody env event b

/-- The parsed body of an event, when one is at hand. -/
def eventChatBody (event : RouterEvent) : Option ChatBody :=
  match event.body with
  | some (.str (some b)) => some b
  | some (.obj b) => some b
  | _ => none

/-! ## Helper lemmas -/

/-- A present slot value means a present slot entry. -/
lemma slots_get_of_value {slots : Slots} {n : SlotName} {x : String}
    (h : get_slot_value slots n = some x) : slots.get n = some (some x) := by
  unfold get_slot_value at h
  cases hg : slots.get n <;> rw [hg] at h <;> simp_all

/-- A present slot value means the entry test of the source is true. -/
lemma gsv_isSome {slots : Slots} {n : SlotName}
    (h : (get_slot_value slots n).isSome = true) : (slots.get n).isSome = true := by
  unfold get_slot_value at h
  cases hg : slots.get n <;> rw [hg] at h <;> simp_all

/-- Each validator accepts an absent value, so a guard of the source of
the form (value is present and invalid) is false exactly when the
validator accepts the value. -/
lemma cond_false_iff (v : Option String) (f : Option String → Bool) (hn : f none = true) :
    (v.isSome && !(f v)) = false ↔ f v = true := by
  cases v <;> simp [hn]

/-- The validation routine succeeds exactly when all five validators
accept their slot values. -/
lemma validate_valid_iff (slots : Slots) :
    validate_dining_suggestion slots = .valid ↔
      is_valid_location (get_slot_value slots .Location) = true ∧
      is_valid_cuisine (get_slot_value slots .Cuisine) = true ∧
      is_valid_number_of_people (get_slot_value slots .NumberOfPeople) = true ∧
      is_valid_dining_time (get_slot_value slots .DiningTime) = true ∧
      is_valid_email (get_slot_value slots .Email) = true := by
  simp only [validate_dining_suggestion]
  constructor
  · intro h
    repeat' split at h
    all_goals try (exact ValidationResult.noConfusion h)
    rename_i hc1 hc2 hc3 hc4 hc5
    exact ⟨(cond_false_iff (get_slot_value slots .Location) is_valid_location rfl).mp
        (Bool.eq_false_iff.mpr hc1),
      (cond_false_iff (get_slot_value slots .Cuisine) is_valid_cuisine rfl).mp
        (Bool.eq_false_iff.mpr hc2),
      (cond_false_iff (get_slot_value slots .NumberOfPeople) is_valid_number_of_people
        rfl).mp (Bool.eq_false_iff.mpr hc3),
      (cond_false_iff (get_slot_value slots .DiningTime) is_valid_dining_time rfl).mp
        (Bool.eq_false_iff.mpr hc4),
      (cond_false_iff (get_slot_value slots .Email) is_valid_email rfl).mp
        (Bool.eq_false_iff.mpr hc5)⟩
  · rintro ⟨h1, h2, h3, h4, h5⟩
    rw [(cond_false_iff (get_slot_value slots .Location) is_valid_location rfl).mpr h1,
      (cond_false_iff (get_slot_value slots .Cuisine) is_valid_cuisine rfl).mpr h2,
      (cond_false_iff (get_slot_value slots .NumberOfPeople) is_valid_number_of_people
        rfl).mpr h3,
      (cond_false_iff (get_slot_value slots .DiningTime) is_valid_dining_time rfl).mpr h4,
      (cond_false_iff (get_slot_value slots .Email) is_valid_email rfl).mpr h5]
    simp

/-- An invalid outcome of the validation routine means the violated slot
entry is present. -/
lemma validate_invalid_isSome {slots : Slots} {S : SlotName} {msg : String}
    (h : validate_dining_suggestion slots = .invalid S msg) :
    (slots.get S).isSome = true := by
  simp only [validate_dining_suggestion] at h
  repeat' split at h
  all_goals first
    | exact ValidationResult.noConfusion h
    | (injection h with hS hmsg
       subst hS
       rename_i hcond
       simp only [Bool.and_eq_true] at hcond
       exact gsv_isSome hcond.1)

/-- A failing validator means the value was present, since every
validator accepts an absent value. -/
lemma isSome_of_validator_false {v : Option String} {f : Option String → Bool}
    (hn : f none = true) (h : f v = false) : v.isSome = true := by
  cases v
  · rw [hn] at h; exact absurd h (by simp)
  · rfl

/-- Appending of strings is associative. -/
lemma string_append_assoc (a b c : String) : a ++ b ++ c = a ++ (b ++ c) :=
  String.append_assoc a b c

/-- The joined cuisine allow-list as it appears in the correction
message. -/
lemma joined_cuisines :
    joinSep ", " VALID_CUISINES =
      "chinese, italian, mexican, japanese, indian, turkish, spanish" := by decide

/-! ## Claim theorems -/

/-- C1: in the dialog phase of the suggestion intent the validators run
in the fixed order location, cuisine, number of people, dining time,
email; the first failing validator determines the ElicitSlot directive
returned, carrying a human-readable correction message, and when all
five validators pass the handler returns a Delegate directive whose slot
set is the input slot set unchanged. -/
theorem lf1_dialog_validation_order (env : SqsEnv) (sa : SessionAttrs)
    (intentName : String) (slots : Slots) :
    (∀ l, get_slot_value slots .Location = some l →
      is_valid_location (some l) = false →
      (handle_dining_suggestions_intent env ⟨sa, intentName, slots, "DialogCodeHook"⟩).1 =
        elicit_slot sa intentName (slots.set .Location none) .Location
          ("Sorry, I don\u0027t have suggestions for " ++ l ++ ". Try another city?")) ∧
    (∀ c, is_valid_location (get_slot_value slots .Location) = true →
      get_slot_value slots .Cuisine = some c →
      is_valid_cuisine (some c) = false →
      (handle_dining_suggestions_intent env ⟨sa, intentName, slots, "DialogCodeHook"⟩).1 =
        elicit_slot sa intentName (slots.set .Cuisine none) .Cuisine
          (c ++ " isn\u0027t a supported cuisine. Choose from: chinese, italian, mexican, japanese, indian, turkish, spanish.")) ∧
    (is_valid_location (get_slot_value slots .Location) = true →
      is_valid_cuisine (get_slot_value slots .Cuisine) = true →
      is_valid_number_of_people (get_slot_value slots .NumberOfPeople) = false →
      (handle_dining_suggestions_intent env ⟨sa, intentName, slots, "DialogCodeHook"⟩).1 =
        elicit_slot sa intentName (slots.set .NumberOfPeople none) .NumberOfPeople
          "Please enter a valid number of people (1-20).") ∧
    (is_valid_location (get_slot_value slots .Location) = true →
      is_valid_cuisine (get_slot_value slots .Cuisine) = true →
      is_valid_number_of_people (get_slot_value slots .NumberOfPeople) = true →
      is_valid_dining_time (get_slot_value slots .DiningTime) = false →
      (handle_dining_suggestions_intent env ⟨sa, intentName, slots, "DialogCodeHook"⟩).1 =
        elicit_slot sa intentName (slots.set .DiningTime none) .DiningTime
          "Please provide a valid time (e.g., 7 pm).") ∧
    (is_valid_location (get_slot_value slots .Location) = true →
      is_valid_cuisine (get_slot_value slots .Cuisine) = true →
      is_valid_number_of_people (get_slot_value slots .NumberOfPeople) = true →
      is_valid_dining_time (get_slot_value slots .DiningTime) = true →
      is_valid_email (get_slot_value slots .Email) = false →
      (handle_dining_suggestions_intent env ⟨sa, intentName, slots, "DialogCodeHook"⟩).1 =
        elicit_slot sa intentName (slots.set .Email none) .Email
          "Please provide a valid email address.") ∧
    (is_valid_location (get_slot_value slots .Location) = true →
      is_valid_cuisine (get_slot_value slots .Cuisine) = true →
      is_valid_number_of_people (get_slot_value slots .NumberOfPeople) = true →
      is_valid_dining_time (get_slot_value slots .DiningTime) = true →
      is_valid_email (get_slot_value slots .Email) = true →
      (handle_dining_suggestions_intent env ⟨sa, intentName, slots, "DialogCodeHook"⟩).1 =
        delegate sa intentName slots) := by
  refine ⟨?_, ?_, ?_, ?_, ?_, ?_⟩
  · intro l hl hbad
    have hg : slots.get .Location = some (some l) := slots_get_of_value hl
    have hv : validate_dining_suggestion slots = .invalid .Location
        ("Sorry, I don\u0027t have suggestions for " ++ l ++ ". Try another city?") := by
      simp only [validate_dining_suggestion, hl]
      simp [hbad]
    simp [handle_dining_suggestions_intent, hv, hg]
  · intro c h1 hc hbad
    have hg : slots.get .Cuisine = some (some c) := slots_get_of_value hc
    have hv : validate_dining_suggestion slots = .invalid .Cuisine
        (c ++ " isn\u0027t a supported cuisine. Choose from: chinese, italian, mexican, japanese, indian, turkish, spanish.") := by
      simp only [validate_dining_suggestion, hc]
      rw [(cond_false_iff (get_slot_value slots .Location) is_valid_location rfl).mpr h1]
      simp [hbad, joined_cuisines, string_append_assoc]
    simp [handle_dining_suggestions_intent, hv, hg]
  · intro h1 h2 hbad
    have hsome : (get_slot_value slots .NumberOfPeople).isSome = true :=
      isSome_of_validator_false rfl hbad
    have hv : validate_dining_suggestion slots = .invalid .NumberOfPeople
        "Please enter a valid number of people (1-20)." := by
      simp only [validate_dining_suggestion]
      rw [(cond_false_iff (get_slot_value slots .Location) is_valid_location rfl).mpr h1,
        (cond_false_iff (get_slot_value slots .Cuisine) is_valid_cuisine rfl).mpr h2]
      simp [hsome, hbad]
    simp [handle_dining_suggestions_intent, hv, gsv_isSome hsome]
  · intro h1 h2 h3 hbad
    have hsome : (get_slot_value slots .DiningTime).isSome = true :=
      isSome_of_validator_false rfl hbad
    have hv : validate_dining_suggestion slots = .invalid .DiningTime
        "Please provide a valid time (e.g., 7 pm)." := by
      simp only [validate_dining_suggestion]
      rw [(cond_false_iff (get_slot_value slots .Location) is_valid_location rfl).mpr h1,
        (cond_false_iff (get_slot_value slots .Cuisine) is_valid_cuisine rfl).mpr h2,
        (cond_false_iff (get_slot_value slots .NumberOfPeople)
          is_valid_number_of_people rfl).mpr h3]
      simp [hsome, hbad]
    simp [handle_dining_suggestions_intent, hv, gsv_isSome hsome]
  · intro h1 h2 h3 h4 hbad
    have hsome : (get_slot_value slots .Email).isSome = true :=
      isSome_of_validator_false rfl hbad
    have hv : validate_dining_suggestion slots = .invalid .Email
        "Please provide a valid email address." := by
      simp only [validate_dining_suggestion]
      rw [(cond_false_iff (get_slot_value slots .Location) is_valid_location rfl).mpr h1,
        (cond_false_iff (get_slot_value slots .Cuisine) is_valid_cuisine rfl).mpr h2,
        (cond_false_iff (get_slot_value slots .NumberOfPeople)
          is_valid_number_of_people rfl).mpr h3,
        (cond_false_iff (get_slot_value slots .DiningTime) is_valid_dining_time rfl).mpr h4]
      simp [hsome, hbad]
    simp [handle_dining_suggestions_intent, hv, gsv_isSome hsome]
  · intro h1 h2 h3 h4 h5
    have hv : validate_dining_suggestion slots = .valid :=
      (validate_valid_iff slots).mpr ⟨h1, h2, h3, h4, h5⟩
    simp [handle_dining_suggestions_intent, hv]

/-- Witness for C1: a slot set whose location fails yields the location
elicitation, and an all-valid slot set yields the unchanged delegation. -/
theorem lf1_dialog_validation_order_witness :
    (handle_dining_suggestions_intent
        ⟨some "q", fun _ => Except.error (), "T0"⟩
        ⟨[], "DiningSuggestionsIntent",
          ⟨some (some "Paris"), none, none, none, none⟩, "DialogCodeHook"⟩).1 =
      elicit_slot [] "DiningSuggestionsIntent"
        ⟨none, none, none, none, none⟩ .Location
        "Sorry, I don\u0027t have suggestions for Paris. Try another city?" ∧
    (handle_dining_suggestions_intent
        ⟨some "q", fun _ => Except.error (), "T0"⟩
        ⟨[], "DiningSuggestionsIntent",
          ⟨some (some "Manhattan"), some (some "Italian"), some (some "19:00"),
            some (some "4"), some (some "a@b.co")⟩, "DialogCodeHook"⟩).1 =
      delegate [] "DiningSuggestionsIntent"
        ⟨some (some "Manhattan"), some (some "Italian"), some (some "19:00"),
          some (some "4"), some (some "a@b.co")⟩ := by
  constructor
  · exact (lf1_dialog_validation_order ⟨some "q", fun _ => Except.error (), "T0"⟩ []
      "DiningSuggestionsIntent" ⟨some (some "Paris"), none, none, none, none⟩).1
      "Paris" rfl (by decide)
  · exact (lf1_dialog_validation_order ⟨some "q", fun _ => Except.error (), "T0"⟩ []
      "DiningSuggestionsIntent"
      ⟨some (some "Manhattan"), some (some "Italian"), some (some "19:00"),
        some (some "4"), some (some "a@b.co")⟩).2.2.2.2.2
      (by decide) (by decide) (by decide) (by decide) (by decide)

/-- C10: when dialog-phase validation fails for slot S, the ElicitSlot
directive carries the input slot set with the entry of S cleared and
every other slot unchanged. -/
theorem lf1_elicit_frame (env : SqsEnv) (sa : SessionAttrs) (intentName : String)
    (slots : Slots) (S : SlotName) (msg : String)
    (h : validate_dining_suggestion slots = .invalid S msg) :
    (handle_dining_suggestions_intent env ⟨sa, intentName, slots, "DialogCodeHook"⟩).1 =
      elicit_slot sa intentName (slots.set S none) S msg ∧
    get_slot_value (slots.set S none) S = none ∧
    ∀ n, n ≠ S → (slots.set S none).get n = slots.get n := by
  have hs : (slots.get S).isSome = true := validate_invalid_isSome h
  refine ⟨?_, ?_, ?_⟩
  · simp [handle_dining_suggestions_intent, h, hs]
  · cases S <;> rfl
  · intro n hn
    cases S <;> cases n <;> first | exact absurd rfl hn | rfl

/-- Witness for C10: a slot set with an unsupported cuisine is returned
with only the cuisine entry cleared. -/
theorem lf1_elicit_frame_witness :
    ((handle_dining_suggestions_intent
        ⟨some "q", fun _ => Except.error (), "T0"⟩
        ⟨[], "DiningSuggestionsIntent",
          ⟨some (some "brooklyn"), some (some "thai"), some (some "19:00"),
            none, none⟩, "DialogCodeHook"⟩).1 =
      elicit_slot [] "DiningSuggestionsIntent"
        ⟨some (some "brooklyn"), none, some (some "19:00"), none, none⟩ .Cuisine
        "thai isn\u0027t a supported cuisine. Choose from: chinese, italian, mexican, japanese, indian, turkish, spanish.") ∧
    get_slot_value
      ((⟨some (some "brooklyn"), some (some "thai"), some (some "19:00"),
        none, none⟩ : Slots).set .Cuisine none) .Cuisine = none ∧
    ((⟨some (some "brooklyn"), some (some "thai"), some (some "19:00"),
        none, none⟩ : Slots).set .Cuisine none).get .Location =
      some (some "brooklyn") := by
  have H := lf1_elicit_frame ⟨some "q", fun _ => Except.error (), "T0"⟩ []
    "DiningSuggestionsIntent"
    ⟨some (some "brooklyn"), some (some "thai"), some (some "19:00"), none, none⟩
    .Cuisine
    "thai isn\u0027t a supported cuisine. Choose from: chinese, italian, mexican, japanese, indian, turkish, spanish."
    (by decide)
  exact ⟨H.1, H.2.1, (H.2.2 .Location (by decide)).trans rfl⟩

/-- C5: the fulfillment-phase suggestion handler always answers with a
Close directive and never lets an exception escape: on a successful
queue write the state is Fulfilled and the message contains the
capitalized cuisine name, and on any failure while composing or sending
the request the state is Failed with the fixed failure message. -/
theorem lf1_fulfillment_always_close (env : SqsEnv) (sa : SessionAttrs)
    (intentName : String) (slots : Slots) :
    (∃ st m,
      (handle_dining_suggestions_intent env ⟨sa, intentName, slots, "FulfillmentCodeHook"⟩).1 =
        close sa intentName st m ∧ (st = "Fulfilled" ∨ st = "Failed")) ∧
    (∀ send mid,
      push_to_sqs env (get_slot_value slots .Location) (get_slot_value slots .Cuisine)
        (get_slot_value slots .DiningTime) (get_slot_value slots .NumberOfPeople)
        (get_slot_value slots .Email) = .ok (send, mid) →
      (handle_dining_suggestions_intent env ⟨sa, intentName, slots, "FulfillmentCodeHook"⟩).1 =
        close sa intentName "Fulfilled"
          (confirmation_message (get_slot_value slots .Cuisine)
            (get_slot_value slots .Location) (get_slot_value slots .NumberOfPeople)
            (get_slot_value slots .DiningTime) (get_slot_value slots .Email)) ∧
      ∃ pre post,
        confirmation_message (get_slot_value slots .Cuisine)
            (get_slot_value slots .Location) (get_slot_value slots .NumberOfPeople)
            (get_slot_value slots .DiningTime) (get_slot_value slots .Email) =
          pre ++ (pyCapitalize ((get_slot_value slots .Cuisine).getD "") ++ post)) ∧
    (∀ e,
      push_to_sqs env (get_slot_value slots .Location) (get_slot_value slots .Cuisine)
        (get_slot_value slots .DiningTime) (get_slot_value slots .NumberOfPeople)
        (get_slot_value slots .Email) = .error e →
      (handle_dining_suggestions_intent env ⟨sa, intentName, slots, "FulfillmentCodeHook"⟩).1 =
        close sa intentName "Failed" fulfillment_failure_message) := by
  refine ⟨?_, ?_, ?_⟩
  · cases hp : push_to_sqs env (get_slot_value slots .Location) (get_slot_value slots .Cuisine)
        (get_slot_value slots .DiningTime) (get_slot_value slots .NumberOfPeople)
        (get_slot_value slots .Email) with
    | error e =>
      exact ⟨"Failed", fulfillment_failure_message,
        by simp [handle_dining_suggestions_intent, hp], Or.inr rfl⟩
    | ok p =>
      exact ⟨"Fulfilled",
        confirmation_message (get_slot_value slots .Cuisine) (get_slot_value slots .Location)
          (get_slot_value slots .NumberOfPeople) (get_slot_value slots .DiningTime)
          (get_slot_value slots .Email),
        by simp [handle_dining_suggestions_intent, hp], Or.inl rfl⟩
  · intro send mid hp
    refine ⟨by simp [handle_dining_suggestions_intent, hp], ?_⟩
    refine ⟨"You\u0027re all set! I\u0027ve received your request for ",
      " restaurant suggestions in " ++ pyStrOpt (get_slot_value slots .Location) ++
        " for " ++ pyStrOpt (get_slot_value slots .NumberOfPeople) ++ " people at " ++
        pyStrOpt (get_slot_value slots .DiningTime) ++ ". I will notify you via email at " ++
        pyStrOpt (get_slot_value slots .Email) ++
        " once I have the list of suggestions. Expect it shortly!", ?_⟩
    simp [confirmation_message, string_append_assoc]
  · intro e hp
    simp [handle_dining_suggestions_intent, hp]

/-- Witness for C5: a fully filled slot set with a working queue closes
Fulfilled with the composed confirmation, and a failing queue client
closes Failed. -/
theorem lf1_fulfillment_always_close_witness :
    (handle_dining_suggestions_intent ⟨some "q", fun _ => Except.ok "m1", "T0"⟩
        ⟨[], "DiningSuggestionsIntent",
          ⟨some (some "brooklyn"), some (some "chinese"), some (some "19:00"),
            some (some "4"), some (some "a@b.co")⟩, "FulfillmentCodeHook"⟩).1 =
      close [] "DiningSuggestionsIntent" "Fulfilled"
        (confirmation_message (some "chinese") (some "brooklyn") (some "4")
          (some "19:00") (some "a@b.co")) ∧
    (handle_dining_suggestions_intent ⟨some "q", fun _ => Except.error (), "T0"⟩
        ⟨[], "DiningSuggestionsIntent",
          ⟨some (some "brooklyn"), some (some "chinese"), some (some "19:00"),
            some (some "4"), some (some "a@b.co")⟩, "FulfillmentCodeHook"⟩).1 =
      close [] "DiningSuggestionsIntent" "Failed" fulfillment_failure_message := by
  constructor
  · exact ((lf1_fulfillment_always_close ⟨some "q", fun _ => Except.ok "m1", "T0"⟩ []
      "DiningSuggestionsIntent"
      ⟨some (some "brooklyn"), some (some "chinese"), some (some "19:00"),
        some (some "4"), some (some "a@b.co")⟩).2.1
      ⟨"q", ⟨some "brooklyn", some "chinese", some "19:00", some "4", some "a@b.co", "T0"⟩,
        "chinese", "brooklyn", "a@b.co"⟩ "m1" rfl).1
  · exact (lf1_fulfillment_always_close ⟨some "q", fun _ => Except.error (), "T0"⟩ []
      "DiningSuggestionsIntent"
      ⟨some (some "brooklyn"), some (some "chinese"), some (some "19:00"),
        some (some "4"), some (some "a@b.co")⟩).2.2 () rfl

/-- C4: a location reading manhattan in any letter case passes
validation unchanged, is rewritten to new york only at queue submission,
and every synonym variant of the worker (case-insensitive, stripped)
collapses to the display label manhattan. -/
theorem manhattan_round_trip (s : String) (h : pyLower s = "manhattan") :
    is_valid_location (some s) = true ∧
    (∀ env cu dt np em send mid,
      push_to_sqs env (some s) cu dt np em = .ok (send, mid) →
      send.messageBody.Location = some "new york" ∧ send.attrLocation = "new york") ∧
    (∀ t, LOCATION_SYNONYMS.contains (pyStrip (pyLower t)) = true →
      workerLocation t = "manhattan") := by
  refine ⟨?_, ?_, ?_⟩
  · simp only [is_valid_location, h]
    decide
  · intro env cu dt np em send mid hp
    simp only [push_to_sqs, h, if_pos] at hp
    repeat' split at hp
    all_goals first
      | exact Except.noConfusion hp
      | (injection hp with hpair
         have hsend : send = _ := (congrArg Prod.fst hpair).symm
         rw [hsend]
         exact ⟨rfl, rfl⟩)
  · intro t ht
    unfold workerLocation
    rw [ht]
    simp

/-- Witness for C4: the value MANHATTAN passes validation, is queued as
new york, and the worker folds a New York City variant to manhattan. -/
theorem manhattan_round_trip_witness :
    is_valid_location (some "MANHATTAN") = true ∧
    ((⟨"q", ⟨some "new york", some "chinese", none, none, some "a@b.co", "T0"⟩,
        "chinese", "new york", "a@b.co"⟩ : SqsSend).messageBody.Location =
      some "new york") ∧
    workerLocation " New York City " = "manhattan" := by
  have H := manhattan_round_trip "MANHATTAN" (by decide)
  exact ⟨H.1,
    (H.2.1 ⟨some "q", fun _ => Except.ok "m1", "T0"⟩ (some "chinese") none none
      (some "a@b.co")
      ⟨"q", ⟨some "new york", some "chinese", none, none, some "a@b.co", "T0"⟩,
        "chinese", "new york", "a@b.co"⟩ "m1" rfl).1,
    H.2.2 " New York City " (by decide)⟩

/-- C2 counterexample: an invocation of the fulfillment-phase handler
with a location value that fails its validator still writes a Suggestion
Request carrying that invalid value to the queue, so enqueueing is not
conditioned on validation inside the handler. -/
theorem lf1_enqueue_without_validation_counterexample :
    (handle_dining_suggestions_intent ⟨some "q", fun _ => Except.ok "m1", "T0"⟩
        ⟨[], "DiningSuggestionsIntent",
          ⟨some (some "Paris"), some (some "chinese"), some (some "19:00"),
            some (some "4"), some (some "a@b.co")⟩, "FulfillmentCodeHook"⟩).2 =
      some ⟨"q", ⟨some "Paris", some "chinese", some "19:00", some "4",
        some "a@b.co", "T0"⟩, "chinese", "Paris", "a@b.co"⟩ ∧
    is_valid_location (some "Paris") = false :=
  ⟨rfl, by decide⟩

/-- C2 amended: the validation gate is the dialog phase, which delegates
exactly when all five validators pass; the fulfillment handler itself
does not re-validate, and the worker checks nothing beyond presence of
cuisine and email, proceeding to the search query whenever both are
nonempty and reporting missing fields when either is absent or empty. -/
theorem lf1_validation_gate_amended (env : SqsEnv) (sa : SessionAttrs)
    (intentName : String) (slots : Slots) :
    ((handle_dining_suggestions_intent env ⟨sa, intentName, slots, "DialogCodeHook"⟩).1 =
        delegate sa intentName slots ↔
      is_valid_location (get_slot_value slots .Location) = true ∧
      is_valid_cuisine (get_slot_value slots .Cuisine) = true ∧
      is_valid_number_of_people (get_slot_value slots .NumberOfPeople) = true ∧
      is_valid_dining_time (get_slot_value slots .DiningTime) = true ∧
      is_valid_email (get_slot_value slots .Email) = true) ∧
    (∀ wenv msg b, wenv.receive = some msg → msg.body = some b →
      pyCapitalize (b.Cuisine.getD "") ≠ "" → b.Email.getD "" ≠ "" →
      (lambda_handler_LF2 wenv).2.termQueries = [pyCapitalize (b.Cuisine.getD "")]) ∧
    (∀ wenv msg b, wenv.receive = some msg → msg.body = some b →
      (pyCapitalize (b.Cuisine.getD "") = "" ∨ b.Email.getD "" = "") →
      (lambda_handler_LF2 wenv).1 = .ret ⟨"Missing required fields", none⟩) := by
  refine ⟨?_, ?_, ?_⟩
  · constructor
    · intro hd
      cases hv : validate_dining_suggestion slots with
      | valid => exact (validate_valid_iff slots).mp hv
      | invalid S m =>
        have hs : (slots.get S).isSome = true := validate_invalid_isSome hv
        simp [handle_dining_suggestions_intent, hv, hs, elicit_slot, delegate] at hd
    · intro hall
      have hv : validate_dining_suggestion slots = .valid :=
        (validate_valid_iff slots).mpr hall
      simp [handle_dining_suggestions_intent, hv]
  · intro wenv msg b hr hb hcu hem
    have hcond : ¬(pyCapitalize (b.Cuisine.getD "") = "" ∨ b.Email.getD "" = "") := by
      rintro (hx | hx)
      · exact hcu hx
      · exact hem hx
    simp only [lambda_handler_LF2, hr, hb]
    rw [if_neg hcond]
    cases hsr : resolveSearch wenv (pyCapitalize (b.Cuisine.getD "")) with
    | error e => simp [hsr]
    | ok hits =>
      simp only [hsr]
      split
      · rfl
      · split
        · rfl
        · cases hs : wenv.sesSend _ <;> simp [hs]
  · intro wenv msg b hr hb hmiss
    simp only [lambda_handler_LF2, hr, hb]
    rw [if_pos hmiss]

/-- Witness for the amended C2: an all-valid slot set delegates, and the
worker reaches the search query for a message whose only sound fields
are cuisine and email. -/
theorem lf1_validation_gate_amended_witness :
    (handle_dining_suggestions_intent ⟨some "q", fun _ => Except.error (), "T0"⟩
        ⟨[], "DiningSuggestionsIntent",
          ⟨some (some "brooklyn"), some (some "chinese"), some (some "19:00"),
            some (some "4"), some (some "a@b.co")⟩, "DialogCodeHook"⟩).1 =
      delegate [] "DiningSuggestionsIntent"
        ⟨some (some "brooklyn"), some (some "chinese"), some (some "19:00"),
          some (some "4"), some (some "a@b.co")⟩ ∧
    (lambda_handler_LF2
        ⟨some ⟨"rh", some ⟨some "chinese", some "not a city", some "a@b.co",
          none, none⟩⟩,
         fun _ => Except.ok [], fun _ => Except.ok [], fun hs _ => hs,
         fun _ => Except.ok none, fun _ => Except.ok (), "src@x.co"⟩).2.termQueries =
      ["Chinese"] := by
  constructor
  · exact (lf1_validation_gate_amended ⟨some "q", fun _ => Except.error (), "T0"⟩ []
      "DiningSuggestionsIntent"
      ⟨some (some "brooklyn"), some (some "chinese"), some (some "19:00"),
        some (some "4"), some (some "a@b.co")⟩).1.mpr
      ⟨by decide, by decide, by decide, by decide, by decide⟩
  · exact ((lf1_validation_gate_amended ⟨some "q", fun _ => Except.error (), "T0"⟩ []
      "DiningSuggestionsIntent"
      ⟨some (some "brooklyn"), some (some "chinese"), some (some "19:00"),
        some (some "4"), some (some "a@b.co")⟩).2.1
      ⟨some ⟨"rh", some ⟨some "chinese", some "not a city", some "a@b.co",
        none, none⟩⟩,
       fun _ => Except.ok [], fun _ => Except.ok [], fun hs _ => hs,
       fun _ => Except.ok none, fun _ => Except.ok (), "src@x.co"⟩
      ⟨"rh", some ⟨some "chinese", some "not a city", some "a@b.co", none, none⟩⟩
      ⟨some "chinese", some "not a city", some "a@b.co", none, none⟩
      rfl rfl (by decide) (by decide)).trans (by decide)

/-- C3: a dining-time string without a colon is always accepted, and one
with a colon is accepted exactly when its first two colon-separated
parts are integers with the hour in the range 0 to 23 and the minute in
the range 0 to 59. -/
theorem lf1_dining_time_quirk (s : String) :
    (strContains s ':' = false → is_valid_dining_time (some s) = true) ∧
    (strContains s ':' = true →
      (is_valid_dining_time (some s) = true ↔
        ∃ hr mi : Int,
          pyIntParse ((pySplit s ':').getD 0 "") = some hr ∧
          pyIntParse ((pySplit s ':').getD 1 "") = some mi ∧
          0 ≤ hr ∧ hr ≤ 23 ∧ 0 ≤ mi ∧ mi ≤ 59)) := by
  constructor
  · intro h
    simp [is_valid_dining_time, h]
  · intro h
    simp only [is_valid_dining_time, h, if_true, ite_true]
    cases hp : pyIntParse ((pySplit s ':').getD 0 "") <;>
      cases hq : pyIntParse ((pySplit s ':').getD 1 "") <;>
      simp [hp, hq, and_assoc]

/-- Witness for C3: a colon-free phrase passes, a well-formed clock time
passes, and an out-of-range hour fails. -/
theorem lf1_dining_time_quirk_witness :
    is_valid_dining_time (some "7 pm") = true ∧
    is_valid_dining_time (some "19:30") = true ∧
    is_valid_dining_time (some "25:00") = false := by
  refine ⟨(lf1_dining_time_quirk "7 pm").1 (by decide), ?_, ?_⟩
  · exact ((lf1_dining_time_quirk "19:30").2 (by decide)).mpr
      ⟨19, 30, by decide, by decide, by decide, by decide, by decide, by decide⟩
  · have H := (lf1_dining_time_quirk "25:00").2 (by decide)
    cases hv : is_valid_dining_time (some "25:00")
    · rfl
    · obtain ⟨hr, mi, h1, h2, _, h4, _, _⟩ := H.mp hv
      have : hr = 25 := by
        have : pyIntParse ((pySplit "25:00" ':').getD 0 "") = some 25 := by decide
        rw [this] at h1
        exact (Option.some.injEq _ _ ▸ h1).symm ▸ rfl
      exact absurd (this ▸ h4) (by decide)

/-- C6: a queue message with cuisine or email absent or empty is
deleted, reported as missing required fields, and triggers no search
query, no store read and no email. -/
theorem lf2_missing_fields (env : WorkerEnv) (msg : SqsWorkerMsg) (b : WorkerBody)
    (hr : env.receive = some msg) (hb : msg.body = some b)
    (hmiss : (b.Cuisine = none ∨ b.Cuisine = some "") ∨
      (b.Email = none ∨ b.Email = some "")) :
    lambda_handler_LF2 env =
      (.ret ⟨"Missing required fields", none⟩, ⟨true, [], [], [], 0⟩) := by
  have hcond : pyCapitalize (b.Cuisine.getD "") = "" ∨ b.Email.getD "" = "" := by
    rcases hmiss with (h | h) | (h | h) <;> simp [h, pyCapitalize]
  simp only [lambda_handler_LF2, hr, hb]
  rw [if_pos hcond]

/-- Witness for C6: a message carrying a cuisine but no email is
reported as missing required fields with no queries performed. -/
theorem lf2_missing_fields_witness :
    lambda_handler_LF2
        ⟨some ⟨"rh", some ⟨some "chinese", some "new york", none, none, none⟩⟩,
         fun _ => Except.ok [], fun _ => Except.ok [], fun hs _ => hs,
         fun _ => Except.ok none, fun _ => Except.ok (), "src@x.co"⟩ =
      (.ret ⟨"Missing required fields", none⟩, ⟨true, [], [], [], 0⟩) :=
  lf2_missing_fields
    ⟨some ⟨"rh", some ⟨some "chinese", some "new york", none, none, none⟩⟩,
     fun _ => Except.ok [], fun _ => Except.ok [], fun hs _ => hs,
     fun _ => Except.ok none, fun _ => Except.ok (), "src@x.co"⟩
    ⟨"rh", some ⟨some "chinese", some "new york", none, none, none⟩⟩
    ⟨some "chinese", some "new york", none, none, none⟩
    rfl rfl (Or.inr (Or.inl rfl))

/-- C7: a message whose cuisine query resolves to zero hits is deleted
and reported with no hits, and the worker performs no store read and no
email send. -/
theorem lf2_zero_hits (env : WorkerEnv) (msg : SqsWorkerMsg) (b : WorkerBody)
    (hr : env.receive = some msg) (hb : msg.body = some b)
    (hcu : pyCapitalize (b.Cuisine.getD "") ≠ "") (hem : b.Email.getD "" ≠ "")
    (hhits : resolveSearch env (pyCapitalize (b.Cuisine.getD "")) = .ok []) :
    (lambda_handler_LF2 env).1 =
      .ret ⟨"No restaurants found for " ++ pyCapitalize (b.Cuisine.getD ""), none⟩ ∧
    (lambda_handler_LF2 env).2.deleted = true ∧
    (lambda_handler_LF2 env).2.dbReads = [] ∧
    (lambda_handler_LF2 env).2.emailAttempts = 0 := by
  have hcond : ¬(pyCapitalize (b.Cuisine.getD "") = "" ∨ b.Email.getD "" = "") := by
    rintro (hx | hx)
    · exact hcu hx
    · exact hem hx
  simp only [lambda_handler_LF2, hr, hb]
  rw [if_neg hcond, hhits]
  exact ⟨rfl, rfl, rfl, rfl⟩

/-- Witness for C7: an empty index answer leads to deletion with no
store reads and no email attempt. -/
theorem lf2_zero_hits_witness :
    (lambda_handler_LF2
        ⟨some ⟨"rh", some ⟨some "chinese", some "new york", some "a@b.co", none, none⟩⟩,
         fun _ => Except.ok [], fun _ => Except.ok [], fun hs _ => hs,
         fun _ => Except.ok none, fun _ => Except.ok (), "src@x.co"⟩).1 =
      .ret ⟨"No restaurants found for Chinese", none⟩ ∧
    (lambda_handler_LF2
        ⟨some ⟨"rh", some ⟨some "chinese", some "new york", some "a@b.co", none, none⟩⟩,
         fun _ => Except.ok [], fun _ => Except.ok [], fun hs _ => hs,
         fun _ => Except.ok none, fun _ => Except.ok (), "src@x.co"⟩).2.deleted = true := by
  have H := lf2_zero_hits
    ⟨some ⟨"rh", some ⟨some "chinese", some "new york", some "a@b.co", none, none⟩⟩,
     fun _ => Except.ok [], fun _ => Except.ok [], fun hs _ => hs,
     fun _ => Except.ok none, fun _ => Except.ok (), "src@x.co"⟩
    ⟨"rh", some ⟨some "chinese", some "new york", some "a@b.co", none, none⟩⟩
    ⟨some "chinese", some "new york", some "a@b.co", none, none⟩
    rfl rfl (by decide) (by decide) rfl
  exact ⟨H.1.trans (by decide), H.2.1⟩

/-- C8 counterexample: when the exact-term query errors and the fallback
match query errors as well, the exception propagates and the message is
not deleted, so it will become visible again and be retried. -/
theorem lf2_delete_counterexample :
    (lambda_handler_LF2
        ⟨some ⟨"rh", some ⟨some "chinese", some "new york", some "a@b.co", none, none⟩⟩,
         fun _ => Except.error (), fun _ => Except.error (), fun hs _ => hs,
         fun _ => Except.ok none, fun _ => Except.ok (), "src@x.co"⟩).1 = .raised ∧
    (lambda_handler_LF2
        ⟨some ⟨"rh", some ⟨some "chinese", some "new york", some "a@b.co", none, none⟩⟩,
         fun _ => Except.error (), fun _ => Except.error (), fun hs _ => hs,
         fun _ => Except.ok none, fun _ => Except.ok (), "src@x.co"⟩).2.deleted = false :=
  ⟨rfl, rfl⟩

/-- C8 amended: the worker deletes the message for the failure causes it
handles, deleting before re-raising on an email-service failure and
deleting when no store record is recoverable; but when the exact-term
query errors and the fallback match query also fails, the exception
propagates without deleting the message. -/
theorem lf2_delete_amended (env : WorkerEnv) (msg : SqsWorkerMsg) (b : WorkerBody)
    (hr : env.receive = some msg) (hb : msg.body = some b)
    (hcu : pyCapitalize (b.Cuisine.getD "") ≠ "") (hem : b.Email.getD "" ≠ "") :
    (resolveSearch env (pyCapitalize (b.Cuisine.getD "")) = .error () →
      (lambda_handler_LF2 env).1 = .raised ∧
      (lambda_handler_LF2 env).2.deleted = false) ∧
    (∀ hits, resolveSearch env (pyCapitalize (b.Cuisine.getD "")) = .ok hits →
      hits.isEmpty = false →
      fetchDetails env (env.sample hits (min 5 hits.length)) = [] →
      (lambda_handler_LF2 env).1 =
        .ret ⟨"No restaurant details found in DynamoDB", none⟩ ∧
      (lambda_handler_LF2 env).2.deleted = true) ∧
    (∀ hits, resolveSearch env (pyCapitalize (b.Cuisine.getD "")) = .ok hits →
      hits.isEmpty = false →
      (fetchDetails env (env.sample hits (min 5 hits.length))).isEmpty = false →
      (∀ e, env.sesSend e = .error ()) →
      (lambda_handler_LF2 env).1 = .raised ∧
      (lambda_handler_LF2 env).2.deleted = true) := by
  have hcond : ¬(pyCapitalize (b.Cuisine.getD "") = "" ∨ b.Email.getD "" = "") := by
    rintro (hx | hx)
    · exact hcu hx
    · exact hem hx
  refine ⟨?_, ?_, ?_⟩
  · intro hsr
    simp only [lambda_handler_LF2, hr, hb]
    rw [if_neg hcond, hsr]
    exact ⟨rfl, rfl⟩
  · intro hits hsr hne hdet
    simp only [lambda_handler_LF2, hr, hb]
    rw [if_neg hcond, hsr]
    simp only [hne, hdet]
    exact ⟨by simp, by simp⟩
  · intro hits hsr hne hdet hses
    simp only [lambda_handler_LF2, hr, hb]
    rw [if_neg hcond, hsr]
    simp only [hne, hdet, hses]
    exact ⟨by simp, by simp⟩

/-- Witness for the amended C8: an email-service failure still deletes
the message before the error propagates. -/
theorem lf2_delete_amended_witness :
    (lambda_handler_LF2
        ⟨some ⟨"rh", some ⟨some "chinese", some "new york", some "a@b.co", none, none⟩⟩,
         fun _ => Except.ok [⟨"r1"⟩], fun _ => Except.ok [], fun hs _ => hs,
         fun _ => Except.ok (some ⟨some "N", some "A", some "4.5", some "100"⟩),
         fun _ => Except.error (), "src@x.co"⟩).1 = .raised ∧
    (lambda_handler_LF2
        ⟨some ⟨"rh", some ⟨some "chinese", some "new york", some "a@b.co", none, none⟩⟩,
         fun _ => Except.ok [⟨"r1"⟩], fun _ => Except.ok [], fun hs _ => hs,
         fun _ => Except.ok (some ⟨some "N", some "A", some "4.5", some "100"⟩),
         fun _ => Except.error (), "src@x.co"⟩).2.deleted = true := by
  have H := (lf2_delete_amended
    ⟨some ⟨"rh", some ⟨some "chinese", some "new york", some "a@b.co", none, none⟩⟩,
     fun _ => Except.ok [⟨"r1"⟩], fun _ => Except.ok [], fun hs _ => hs,
     fun _ => Except.ok (some ⟨some "N", some "A", some "4.5", some "100"⟩),
     fun _ => Except.error (), "src@x.co"⟩
    ⟨"rh", some ⟨some "chinese", some "new york", some "a@b.co", none, none⟩⟩
    ⟨some "chinese", some "new york", some "a@b.co", none, none⟩
    rfl rfl (by decide) (by decide)).2.2 [⟨"r1"⟩] rfl rfl rfl (fun _ => rfl)
  exact H

/-- When an event carries a parsed body, the router runs the validated
path on it. -/
lemma lf0_body_cases {env : RouterEnv} {event : RouterEvent} {b : ChatBody}
    (h : eventChatBody event = some b) :
    lambda_handler_LF0 env event = routerWithBody env event b := by
  rcases event with ⟨body, x, s⟩
  cases body with
  | none => exact absurd h (by simp [eventChatBody])
  | some rb =>
    cases rb with
    | str p =>
      cases p with
      | none => exact absurd h (by simp [eventChatBody])
      | some b2 =>
        simp only [eventChatBody, Option.some.injEq] at h
        subst h
        rfl
    | obj b2 =>
      simp only [eventChatBody, Option.some.injEq] at h
      subst h
      rfl

/-- Every branch of the validated path carries the permissive headers. -/
lemma routerWithBody_headers (env : RouterEnv) (event : RouterEvent) (b : ChatBody) :
    (routerWithBody env event b).headers = corsHeaders := by
  unfold routerWithBody
  repeat' split
  all_goals rfl

/-- C9: the router answers missing or malformed bodies, messages without
text, empty or whitespace-only text and unparseable JSON with the
corresponding structured 400 errors, answers any engine failure with the
generic 500, and attaches the permissive cross-origin headers to every
response, success included. -/
theorem lf0_error_taxonomy (env : RouterEnv) (event : RouterEvent) :
    (lambda_handler_LF0 env event).headers = corsHeaders ∧
    (event.body = none →
      lambda_handler_LF0 env event = error_response 400 "Missing request body") ∧
    (event.body = some (.str none) →
      lambda_handler_LF0 env event = error_response 400 "Invalid JSON in request body") ∧
    (∀ b, eventChatBody event = some b →
      ((b.messages = none ∨ b.messages = some ([] : List ChatMessage)) →
        lambda_handler_LF0 env event =
          error_response 400 "Missing or empty messages array") ∧
      (∀ ms, b.messages = some ms → ms.isEmpty = false →
        (userTextOf (ms.getLastD ⟨none, none⟩) = none →
          lambda_handler_LF0 env event =
            error_response 400 "Message has no text content") ∧
        (∀ t, userTextOf (ms.getLastD ⟨none, none⟩) = some t →
          pyStrip t = "" →
          lambda_handler_LF0 env event = error_response 400 "Empty message text") ∧
        (∀ t, userTextOf (ms.getLastD ⟨none, none⟩) = some t →
          pyStrip t ≠ "" →
          env.lex t (sessionIdOf b event) = .error () →
          lambda_handler_LF0 env event =
            error_response 500 "Internal server error") ∧
        (∀ t msgs, userTextOf (ms.getLastD ⟨none, none⟩) = some t →
          pyStrip t ≠ "" →
          env.lex t (sessionIdOf b event) = .ok msgs →
          lambda_handler_LF0 env event =
            ⟨200, corsHeaders,
              .ok [⟨env.uuid,
                if msgs.isEmpty
                  then "Sorry, I didn\u0027t understand that. Could you try again?"
                  else joinSep " " msgs, env.now⟩]⟩))) := by
  refine ⟨?_, ?_, ?_, ?_⟩
  · cases hb : eventChatBody event with
    | some b => rw [lf0_body_cases hb]; exact routerWithBody_headers env event b
    | none =>
      rcases event with ⟨body, x, s⟩
      cases body with
      | none => rfl
      | some rb =>
        cases rb with
        | str p =>
          cases p with
          | none => rfl
          | some b2 => exact absurd hb (by simp [eventChatBody])
        | obj b2 => exact absurd hb (by simp [eventChatBody])
  · intro h
    rcases event with ⟨body, x, s⟩
    cases h
    rfl
  · intro h
    rcases event with ⟨body, x, s⟩
    cases h
    rfl
  · intro b hb
    rw [lf0_body_cases hb]
    constructor
    · intro hm
      cases hm with
      | inl h => simp [routerWithBody, h]
      | inr h => simp [routerWithBody, h]
    · intro ms hms hne
      rw [show (routerWithBody env event b) =
          (match userTextOf (ms.getLastD ⟨none, none⟩) with
            | none => error_response 400 "Message has no text content"
            | some user_text =>
              if user_text = "" ∨ pyStrip user_text = "" then
                error_response 400 "Empty message text"
              else
                match send_to_lex env user_text (sessionIdOf b event) with
                | .error _ => error_response 500 "Internal server error"
                | .ok lexText =>
                  ⟨200, corsHeaders, .ok [⟨env.uuid, lexText, env.now⟩]⟩) from by
        simp [routerWithBody, hms, hne]]
      refine ⟨?_, ?_, ?_, ?_⟩
      · intro ht
        rw [ht]
      · intro t ht hstrip
        rw [ht]
        have : t = "" ∨ pyStrip t = "" := Or.inr hstrip
        simp [this, hstrip]
      · intro t ht hstrip hlex
        rw [ht]
        have hc : ¬(t = "" ∨ pyStrip t = "") := by
          rintro (hx | hx)
          · exact hstrip (by rw [hx]; decide)
          · exact hstrip hx
        show (if t = "" ∨ pyStrip t = "" then error_response 400 "Empty message text"
          else
            match send_to_lex env t (sessionIdOf b event) with
            | .error _ => error_response 500 "Internal server error"
            | .ok lexText =>
              ⟨200, corsHeaders, .ok [⟨env.uuid, lexText, env.now⟩]⟩) =
          error_response 500 "Internal server error"
        rw [if_neg hc]
        simp [send_to_lex, hlex]
      · intro t msgs ht hstrip hlex
        rw [ht]
        have hc : ¬(t = "" ∨ pyStrip t = "") := by
          rintro (hx | hx)
          · exact hstrip (by rw [hx]; decide)
          · exact hstrip hx
        show (if t = "" ∨ pyStrip t = "" then error_response 400 "Empty message text"
          else
            match send_to_lex env t (sessionIdOf b event) with
            | .error _ => error_response 500 "Internal server error"
            | .ok lexText =>
              ⟨200, corsHeaders, .ok [⟨env.uuid, lexText, env.now⟩]⟩) =
          ⟨200, corsHeaders,
            .ok [⟨env.uuid,
              if msgs.isEmpty
                then "Sorry, I didn\u0027t understand that. Could you try again?"
                else joinSep " " msgs, env.now⟩]⟩
        rw [if_neg hc]
        simp [send_to_lex, hlex]

/-- Witness for C9: a bodyless event draws the 400 error, and a sound
request draws the 200 envelope with the joined engine reply. -/
theorem lf0_error_taxonomy_witness :
    lambda_handler_LF0 ⟨fun _ _ => Except.ok ["Hi"], "id1", "ts1"⟩ ⟨none, none, none⟩ =
      error_response 400 "Missing request body" ∧
    lambda_handler_LF0 ⟨fun _ _ => Except.ok ["Hi", "there"], "id1", "ts1"⟩
        ⟨some (.obj ⟨some [⟨some ⟨some "hello"⟩, none⟩], some "sess"⟩), none, none⟩ =
      ⟨200, corsHeaders, .ok [⟨"id1", "Hi there", "ts1"⟩]⟩ := by
  constructor
  · exact (lf0_error_taxonomy ⟨fun _ _ => Except.ok ["Hi"], "id1", "ts1"⟩
      ⟨none, none, none⟩).2.1 rfl
  · have H := ((((lf0_error_taxonomy ⟨fun _ _ => Except.ok ["Hi", "there"], "id1", "ts1"⟩
      ⟨some (.obj ⟨some [⟨some ⟨some "hello"⟩, none⟩], some "sess"⟩), none, none⟩).2.2.2
      ⟨some [⟨some ⟨some "hello"⟩, none⟩], some "sess"⟩ rfl).2
      [⟨some ⟨some "hello"⟩, none⟩] rfl rfl).2.2.2
      "hello" ["Hi", "there"] rfl (by decide) rfl)
    exact H.trans (by decide)

end Spec2Proof
